import Mathlib

/-!
Verification of `cli_standard_kit/init_project.py`.

The script under verification is a one-shot scaffolding tool:

  def run(cmd, **kwargs):
      print(f"▶ {cmd}")
      subprocess.run(cmd, shell=True, check=True, **kwargs)

  def run_init():
      if len(sys.argv) < 2:
          print("❌ Usage: cli-standard-kit init <project_name>")
          sys.exit(1)
      project_name = sys.argv[1]
      print(f"🚀 Creating new CLI project: {project_name}")
      run(f"cookiecutter gh:c3nk/cookiecutter-cli-standard-kit --no-input "
          f"project_name='{project_name}' project_slug='{project_name}'")
      os.chdir(project_name)
      print("📁 Entered:", os.getcwd())
      run("git init -q && git add . && git commit -m 'init project'")
      run("git branch -M main")
      print("🐍 Creating virtual environment (.venv)...")
      run("python3 -m venv .venv")
      print("✅ Virtual environment created.")
      print("\n📦 Project ready!")
      print(f"➡ cd {project_name} && source .venv/bin/activate && python src/{project_name}/cli.py --help")

The embedding below models one execution of `run_init` as a pure function of
the process argument list and an environment describing how the outside world
responds (the exit status of each shelled-out command, whether `os.chdir`
succeeds, and what `os.getcwd` returns afterwards).  The execution is recorded
as a trace of observable events (stdout lines, external command invocations,
working-directory changes) together with a final outcome.  Python runtime
semantics used by the model: `sys.exit(1)` terminates the process with status
1; an uncaught exception (`subprocess.CalledProcessError` raised by
`check=True`, or the `OSError` raised by a failing `os.chdir`) terminates the
interpreter with a stack trace and process exit status 1.
-/

/-- The single-quote character, `Char.ofNat 39`. -/
def qc : Char := Char.ofNat 39

/-- The single-quote character as a one-character string. -/
def quo : String := String.singleton qc

/-- One observable event of an execution of the script: a line printed to
stdout, an external command handed to `subprocess.run(..., shell=True)`, or a
successful change of the process working directory. -/
inductive Event where
  | print (s : String)
  | exec (cmd : String)
  | chdir (dir : String)
deriving DecidableEq, Repr

/-- Final outcome of one execution of `run_init`: normal completion,
`sys.exit(1)` on the usage path, an uncaught `CalledProcessError` carrying the
failing command and its exit status, or an uncaught `OSError` from
`os.chdir`. -/
inductive Outcome where
  | success
  | usageExit
  | cmdFailure (cmd : String) (code : Nat)
  | chdirFailure (dir : String)
deriving DecidableEq, Repr

/-- The environment a run of the script interacts with: `cmdExit c` is the
exit status of the shell command `c`, `chdirOk d` says whether `os.chdir d`
succeeds, and `getcwd d` is what `os.getcwd()` returns after a successful
`os.chdir d`. -/
structure Env where
  cmdExit : String → Nat
  chdirOk : String → Bool
  getcwd : String → String

/-- The usage message printed when no project name is supplied. -/
def usageMsg : String := "❌ Usage: cli-standard-kit init <project_name>"

/-- The status line announcing the project name. -/
def startMsg (p : String) : String := "🚀 Creating new CLI project: " ++ p

/-- The cookiecutter command constructed from the project name, exactly as the
two adjacent f-strings in the source build it. -/
def cookiecutterCmd (p : String) : String :=
  "cookiecutter gh:c3nk/cookiecutter-cli-standard-kit --no-input " ++
    ("project_name=" ++ quo ++ p ++ quo ++ " project_slug=" ++ quo ++ p ++ quo)

/-- The line printed by `print("📁 Entered:", os.getcwd())`. -/
def enteredMsg (cwd : String) : String := "📁 Entered: " ++ cwd

/-- The git bootstrap command: quiet init, stage all, one commit. -/
def gitInitCmd : String :=
  "git init -q && git add . && git commit -m " ++ quo ++ "init project" ++ quo

/-- The branch-rename command. -/
def gitBranchCmd : String := "git branch -M main"

/-- The status line announcing virtual-environment creation. -/
def venvAnnounceMsg : String := "🐍 Creating virtual environment (.venv)..."

/-- The virtual-environment creation command. -/
def venvCmd : String := "python3 -m venv .venv"

/-- The completion line after virtual-environment creation. -/
def venvDoneMsg : String := "✅ Virtual environment created."

/-- The first line of the final hint. -/
def readyMsg : String := "\n📦 Project ready!"

/-- The last line of the final hint. -/
def hintMsg (p : String) : String :=
  "➡ cd " ++ p ++ " && source .venv/bin/activate && python src/" ++ p ++
    "/cli.py --help"

/-- The events of the helper `run(cmd)`: it echoes the command and then hands
it to `subprocess.run`. -/
def echoExec (cmd : String) : List Event :=
  [Event.print ("▶ " ++ cmd), Event.exec cmd]

/-- One execution of `run_init`, given the environment and `sys.argv`.
Each `if` mirrors the fail-fast behaviour of `check=True` (a non-zero exit
status raises, aborting the remaining straight-line code) and of `os.chdir`
(which raises without changing the directory when the target is missing). -/
def run_init (env : Env) (argv : List String) : List Event × Outcome :=
  match argv with
  | [] => ([Event.print usageMsg], Outcome.usageExit)
  | [_] => ([Event.print usageMsg], Outcome.usageExit)
  | _ :: project_name :: _ =>
    let t1 := Event.print (startMsg project_name) ::
      echoExec (cookiecutterCmd project_name)
    if env.cmdExit (cookiecutterCmd project_name) ≠ 0 then
      (t1, Outcome.cmdFailure (cookiecutterCmd project_name)
        (env.cmdExit (cookiecutterCmd project_name)))
    else if env.chdirOk project_name = false then
      (t1, Outcome.chdirFailure project_name)
    else
      let t2 := t1 ++ [Event.chdir project_name,
        Event.print (enteredMsg (env.getcwd project_name))]
      let t3 := t2 ++ echoExec gitInitCmd
      if env.cmdExit gitInitCmd ≠ 0 then
        (t3, Outcome.cmdFailure gitInitCmd (env.cmdExit gitInitCmd))
      else
        let t4 := t3 ++ echoExec gitBranchCmd
        if env.cmdExit gitBranchCmd ≠ 0 then
          (t4, Outcome.cmdFailure gitBranchCmd (env.cmdExit gitBranchCmd))
        else
          let t5 := t4 ++ Event.print venvAnnounceMsg :: echoExec venvCmd
          if env.cmdExit venvCmd ≠ 0 then
            (t5, Outcome.cmdFailure venvCmd (env.cmdExit venvCmd))
          else
            (t5 ++ [Event.print venvDoneMsg, Event.print readyMsg,
              Event.print (hintMsg project_name)], Outcome.success)

/-- Process exit status produced by each outcome.  `sys.exit(1)` gives 1; a
Python process that dies of an uncaught exception exits with status 1
regardless of the exception's content; normal completion gives 0. -/
def exitCode : Outcome → Nat
  | Outcome.success => 0
  | Outcome.usageExit => 1
  | Outcome.cmdFailure _ _ => 1
  | Outcome.chdirFailure _ => 1

/-- The commands handed to the shell, in order, extracted from a trace. -/
def execCmds (tr : List Event) : List String :=
  tr.filterMap fun e =>
    match e with
    | Event.exec c => some c
    | _ => none

/-- Recognizer for working-directory-change events. -/
def isChdirEv : Event → Bool
  | Event.chdir _ => true
  | _ => false

/-- Char-list prefix test. -/
def startsWithChars (pre s : List Char) : Bool :=
  s.take pre.length == pre

/-- A shell command is a cookiecutter (template-generation) invocation when
its program word is `cookiecutter`. -/
def isCookiecutterInvocation (c : String) : Bool :=
  startsWithChars "cookiecutter".data c.data

/-- Trace prefix after the announcement print and the cookiecutter `run`. -/
def preTrace (p : String) : List Event :=
  Event.print (startMsg p) :: echoExec (cookiecutterCmd p)

/-- Trace prefix after the successful `os.chdir` and the path print. -/
def cdTrace (env : Env) (p : String) : List Event :=
  preTrace p ++ [Event.chdir p, Event.print (enteredMsg (env.getcwd p))]

/-- Trace prefix after the git bootstrap `run`. -/
def gitTrace (env : Env) (p : String) : List Event :=
  cdTrace env p ++ echoExec gitInitCmd

/-- Trace prefix after the branch-rename `run`. -/
def brTrace (env : Env) (p : String) : List Event :=
  gitTrace env p ++ echoExec gitBranchCmd

/-- Trace prefix after the venv announcement and the venv `run`. -/
def venvTrace (env : Env) (p : String) : List Event :=
  brTrace env p ++ Event.print venvAnnounceMsg :: echoExec venvCmd

/-- The complete trace of a fully successful run. -/
def fullTrace (env : Env) (p : String) : List Event :=
  venvTrace env p ++ [Event.print venvDoneMsg, Event.print readyMsg,
    Event.print (hintMsg p)]

/-- All five external interactions succeed. -/
def stepsOk (env : Env) (p : String) : Prop :=
  env.cmdExit (cookiecutterCmd p) = 0 ∧ env.chdirOk p = true ∧
    env.cmdExit gitInitCmd = 0 ∧ env.cmdExit gitBranchCmd = 0 ∧
    env.cmdExit venvCmd = 0

/-- An environment in which every external step succeeds. -/
def env0 : Env where
  cmdExit := fun _ => 0
  chdirOk := fun _ => true
  getcwd := fun p => "/home/user/" ++ p

lemma run_init_success (env : Env) (prog p : String) (rest : List String)
    (hc : env.cmdExit (cookiecutterCmd p) = 0) (hd : env.chdirOk p = true)
    (hg : env.cmdExit gitInitCmd = 0) (hb : env.cmdExit gitBranchCmd = 0)
    (hv : env.cmdExit venvCmd = 0) :
    run_init env (prog :: p :: rest) = (fullTrace env p, Outcome.success) := by
  simp [run_init, hc, hd, hg, hb, hv, fullTrace, venvTrace, brTrace, gitTrace,
    cdTrace, preTrace]

lemma run_init_ccFail (env : Env) (prog p : String) (rest : List String)
    (hc : env.cmdExit (cookiecutterCmd p) ≠ 0) :
    run_init env (prog :: p :: rest) =
      (preTrace p,
        Outcome.cmdFailure (cookiecutterCmd p)
          (env.cmdExit (cookiecutterCmd p))) := by
  simp [run_init, hc, preTrace]

lemma run_init_cdFail (env : Env) (prog p : String) (rest : List String)
    (hc : env.cmdExit (cookiecutterCmd p) = 0) (hd : env.chdirOk p = false) :
    run_init env (prog :: p :: rest) =
      (preTrace p, Outcome.chdirFailure p) := by
  simp [run_init, hc, hd, preTrace]

lemma run_init_gitFail (env : Env) (prog p : String) (rest : List String)
    (hc : env.cmdExit (cookiecutterCmd p) = 0) (hd : env.chdirOk p = true)
    (hg : env.cmdExit gitInitCmd ≠ 0) :
    run_init env (prog :: p :: rest) =
      (gitTrace env p, Outcome.cmdFailure gitInitCmd
        (env.cmdExit gitInitCmd)) := by
  simp [run_init, hc, hd, hg, gitTrace, cdTrace, preTrace]

lemma run_init_brFail (env : Env) (prog p : String) (rest : List String)
    (hc : env.cmdExit (cookiecutterCmd p) = 0) (hd : env.chdirOk p = true)
    (hg : env.cmdExit gitInitCmd = 0) (hb : env.cmdExit gitBranchCmd ≠ 0) :
    run_init env (prog :: p :: rest) =
      (brTrace env p, Outcome.cmdFailure gitBranchCmd
        (env.cmdExit gitBranchCmd)) := by
  simp [run_init, hc, hd, hg, hb, brTrace, gitTrace, cdTrace, preTrace]

lemma run_init_venvFail (env : Env) (prog p : String) (rest : List String)
    (hc : env.cmdExit (cookiecutterCmd p) = 0) (hd : env.chdirOk p = true)
    (hg : env.cmdExit gitInitCmd = 0) (hb : env.cmdExit gitBranchCmd = 0)
    (hv : env.cmdExit venvCmd ≠ 0) :
    run_init env (prog :: p :: rest) =
      (venvTrace env p, Outcome.cmdFailure venvCmd (env.cmdExit venvCmd)) := by
  simp [run_init, hc, hd, hg, hb, hv, venvTrace, brTrace, gitTrace, cdTrace,
    preTrace]

lemma isCookiecutter_cc (p : String) :
    isCookiecutterInvocation (cookiecutterCmd p) = true := by
  unfold isCookiecutterInvocation startsWithChars cookiecutterCmd
  rw [String.data_append, List.take_append_of_le_length (by decide)]
  decide

lemma isCookiecutter_git : isCookiecutterInvocation gitInitCmd = false := by
  decide

lemma isCookiecutter_branch :
    isCookiecutterInvocation gitBranchCmd = false := by
  decide

lemma isCookiecutter_venv : isCookiecutterInvocation venvCmd = false := by
  decide

lemma cc_ne_git (p : String) : cookiecutterCmd p ≠ gitInitCmd := by
  intro h
  have h1 := isCookiecutter_cc p
  rw [h, isCookiecutter_git] at h1
  exact Bool.false_ne_true h1

lemma cc_ne_branch (p : String) : cookiecutterCmd p ≠ gitBranchCmd := by
  intro h
  have h1 := isCookiecutter_cc p
  rw [h, isCookiecutter_branch] at h1
  exact Bool.false_ne_true h1

lemma cc_ne_venv (p : String) : cookiecutterCmd p ≠ venvCmd := by
  intro h
  have h1 := isCookiecutter_cc p
  rw [h, isCookiecutter_venv] at h1
  exact Bool.false_ne_true h1

/-- Whenever a project name is present, the produced trace is one of the five
cumulative prefixes: through cookiecutter, through git bootstrap, through
branch rename, through venv creation, or the full trace. -/
lemma run_init_trace_cases (env : Env) (prog p : String) (rest : List String) :
    (run_init env (prog :: p :: rest)).1 = preTrace p ∨
    (run_init env (prog :: p :: rest)).1 = gitTrace env p ∨
    (run_init env (prog :: p :: rest)).1 = brTrace env p ∨
    (run_init env (prog :: p :: rest)).1 = venvTrace env p ∨
    (run_init env (prog :: p :: rest)).1 = fullTrace env p := by
  by_cases hc : env.cmdExit (cookiecutterCmd p) = 0
  · by_cases hd : env.chdirOk p = true
    · by_cases hg : env.cmdExit gitInitCmd = 0
      · by_cases hb : env.cmdExit gitBranchCmd = 0
        · by_cases hv : env.cmdExit venvCmd = 0
          · exact Or.inr (Or.inr (Or.inr (Or.inr
              (by rw [run_init_success env prog p rest hc hd hg hb hv]))))
          · exact Or.inr (Or.inr (Or.inr (Or.inl
              (by rw [run_init_venvFail env prog p rest hc hd hg hb hv]))))
        · exact Or.inr (Or.inr (Or.inl
            (by rw [run_init_brFail env prog p rest hc hd hg hb])))
      · exact Or.inr (Or.inl
          (by rw [run_init_gitFail env prog p rest hc hd hg]))
    · exact Or.inl (by rw [run_init_cdFail env prog p rest hc
        (Bool.not_eq_true _ ▸ hd : env.chdirOk p = false)])
  · exact Or.inl (by rw [run_init_ccFail env prog p rest hc])

/-- C1: with a project name supplied, `run_init` issues exactly one
cookiecutter invocation; its command string carries the project name as the
value of both the `project_name` and `project_slug` template variables (each
wrapped in single quotes) and carries the `--no-input` flag. -/
theorem run_init_cookiecutter_once (env : Env) (prog p : String)
    (rest : List String) :
    (execCmds (run_init env (prog :: p :: rest)).1).filter
        isCookiecutterInvocation = [cookiecutterCmd p]
    ∧ (∃ a b, cookiecutterCmd p =
        a ++ ("project_name=" ++ quo ++ p ++ quo) ++ b)
    ∧ (∃ a b, cookiecutterCmd p =
        a ++ ("project_slug=" ++ quo ++ p ++ quo) ++ b)
    ∧ (∃ a b, cookiecutterCmd p = a ++ "--no-input" ++ b) := by
  refine ⟨?_, ?_, ?_, ?_⟩
  · rcases run_init_trace_cases env prog p rest with h | h | h | h | h <;>
      rw [h] <;>
      simp [preTrace, cdTrace, gitTrace, brTrace, venvTrace, fullTrace,
        echoExec, execCmds, isCookiecutter_cc, isCookiecutter_git,
        isCookiecutter_branch, isCookiecutter_venv]
  · refine ⟨"cookiecutter gh:c3nk/cookiecutter-cli-standard-kit --no-input ",
      " project_slug=" ++ quo ++ p ++ quo, ?_⟩
    simp only [cookiecutterCmd]
    simp [String.append_assoc]
  · refine ⟨"cookiecutter gh:c3nk/cookiecutter-cli-standard-kit --no-input " ++
      "project_name=" ++ quo ++ p ++ quo ++ " ", "", ?_⟩
    apply String.ext
    have hs : (" project_slug=" : String).data =
        (" " : String).data ++ ("project_slug=" : String).data := rfl
    have h0 : ("" : String).data = [] := rfl
    simp only [cookiecutterCmd, String.data_append, hs, h0,
      List.append_assoc, List.append_nil]
    simp only [List.cons_append, List.singleton_append, List.nil_append]
  · refine ⟨"cookiecutter gh:c3nk/cookiecutter-cli-standard-kit ",
      " " ++ ("project_name=" ++ quo ++ p ++ quo ++ " project_slug=" ++
        quo ++ p ++ quo), ?_⟩
    apply String.ext
    have hs :
        ("cookiecutter gh:c3nk/cookiecutter-cli-standard-kit --no-input "
            : String).data =
          ("cookiecutter gh:c3nk/cookiecutter-cli-standard-kit " : String).data
            ++ ("--no-input" : String).data ++ (" " : String).data := rfl
    simp only [cookiecutterCmd, String.data_append, hs, List.append_assoc]
    simp only [List.cons_append, List.singleton_append, List.nil_append]

/-- Witness for C1 at a concrete environment and argument list. -/
theorem run_init_cookiecutter_once_witness :
    (execCmds (run_init env0 ("cli-standard-kit" :: "demo" :: [])).1).filter
        isCookiecutterInvocation = [cookiecutterCmd "demo"] :=
  (run_init_cookiecutter_once env0 "cli-standard-kit" "demo" []).1

/-- C2: with fewer than two entries in `sys.argv`, `run_init` prints only the
usage message, terminates via `sys.exit(1)` with process exit status 1, and
the trace contains no external command invocation and no directory change. -/
theorem run_init_usage_error (env : Env) (argv : List String)
    (h : argv.length < 2) :
    run_init env argv = ([Event.print usageMsg], Outcome.usageExit)
    ∧ exitCode (run_init env argv).2 = 1
    ∧ execCmds (run_init env argv).1 = []
    ∧ (run_init env argv).1.filter isChdirEv = [] := by
  match argv with
  | [] => exact ⟨rfl, rfl, rfl, rfl⟩
  | [_] => exact ⟨rfl, rfl, rfl, rfl⟩
  | _ :: _ :: _ => simp [List.length_cons] at h; omega

/-- Witness for C2: invoking with only the program name. -/
theorem run_init_usage_error_witness :
    run_init env0 ["cli-standard-kit"] =
      ([Event.print usageMsg], Outcome.usageExit) :=
  (run_init_usage_error env0 ["cli-standard-kit"] (by decide)).1

/-- C3: the steps run strictly in the documented order, and a failure of any
step yields exactly the trace accumulated so far — in particular a failing
template-generation step leaves a trace with no directory change and no git or
venv command. -/
theorem run_init_sequencing (env : Env) (prog p : String)
    (rest : List String) :
    (stepsOk env p →
      run_init env (prog :: p :: rest) = (fullTrace env p, Outcome.success))
    ∧ (env.cmdExit (cookiecutterCmd p) ≠ 0 →
        run_init env (prog :: p :: rest) =
          (preTrace p, Outcome.cmdFailure (cookiecutterCmd p)
            (env.cmdExit (cookiecutterCmd p)))
        ∧ execCmds (preTrace p) = [cookiecutterCmd p]
        ∧ (preTrace p).filter isChdirEv = [])
    ∧ (env.cmdExit (cookiecutterCmd p) = 0 → env.chdirOk p = false →
        run_init env (prog :: p :: rest) =
          (preTrace p, Outcome.chdirFailure p))
    ∧ (env.cmdExit (cookiecutterCmd p) = 0 → env.chdirOk p = true →
        env.cmdExit gitInitCmd ≠ 0 →
        run_init env (prog :: p :: rest) =
          (gitTrace env p, Outcome.cmdFailure gitInitCmd
            (env.cmdExit gitInitCmd))
        ∧ execCmds (gitTrace env p) = [cookiecutterCmd p, gitInitCmd])
    ∧ (env.cmdExit (cookiecutterCmd p) = 0 → env.chdirOk p = true →
        env.cmdExit gitInitCmd = 0 → env.cmdExit gitBranchCmd ≠ 0 →
        run_init env (prog :: p :: rest) =
          (brTrace env p, Outcome.cmdFailure gitBranchCmd
            (env.cmdExit gitBranchCmd)))
    ∧ (env.cmdExit (cookiecutterCmd p) = 0 → env.chdirOk p = true →
        env.cmdExit gitInitCmd = 0 → env.cmdExit gitBranchCmd = 0 →
        env.cmdExit venvCmd ≠ 0 →
        run_init env (prog :: p :: rest) =
          (venvTrace env p, Outcome.cmdFailure venvCmd
            (env.cmdExit venvCmd))) := by
  refine ⟨?_, ?_, ?_, ?_, ?_, ?_⟩
  · rintro ⟨hc, hd, hg, hb, hv⟩
    exact run_init_success env prog p rest hc hd hg hb hv
  · intro hc
    exact ⟨run_init_ccFail env prog p rest hc,
      by simp [preTrace, echoExec, execCmds],
      by simp [preTrace, echoExec, isChdirEv]⟩
  · intro hc hd
    exact run_init_cdFail env prog p rest hc hd
  · intro hc hd hg
    exact ⟨run_init_gitFail env prog p rest hc hd hg,
      by simp [gitTrace, cdTrace, preTrace, echoExec, execCmds, isChdirEv]⟩
  · intro hc hd hg hb
    exact run_init_brFail env prog p rest hc hd hg hb
  · intro hc hd hg hb hv
    exact run_init_venvFail env prog p rest hc hd hg hb hv

/-- Witness for C3: with every external step succeeding, the result is the
full ordered trace. -/
theorem run_init_sequencing_witness :
    run_init env0 ["cli-standard-kit", "demo"] =
      (fullTrace env0 "demo", Outcome.success) :=
  (run_init_sequencing env0 "cli-standard-kit" "demo" []).1
    ⟨rfl, rfl, rfl, rfl, rfl⟩

/-- An environment in which the cookiecutter step for project `demo` exits
with status 7 and everything else succeeds. -/
def envSeven : Env where
  cmdExit := fun c => if c = cookiecutterCmd "demo" then 7 else 0
  chdirOk := fun _ => true
  getcwd := fun p => "/home/user/" ++ p

/-- Counterexample to C4 as stated: when the cookiecutter command exits with
status 7, the process exit status is 1 — the Python uncaught-exception
status — not the failing command's own status 7. -/
theorem exit_code_not_propagated :
    (run_init envSeven ["cli-standard-kit", "demo"]).2 =
      Outcome.cmdFailure (cookiecutterCmd "demo") 7
    ∧ exitCode (run_init envSeven ["cli-standard-kit", "demo"]).2 = 1
    ∧ (1 : Nat) ≠ 7 := by
  have hc : envSeven.cmdExit (cookiecutterCmd "demo") = 7 := by
    simp [envSeven]
  have h := run_init_ccFail envSeven "cli-standard-kit" "demo" []
    (by rw [hc]; omega)
  rw [hc] at h
  exact ⟨by rw [h], by rw [h]; rfl, by omega⟩

/-- C4 (amended): the process exit status is 0 exactly on full success; a
failing shelled-out command terminates the process with status 1 (Python's
uncaught-exception status, whatever the command's own status was); a missing
argument also exits with status 1. -/
theorem run_init_exit_codes (env : Env) (argv : List String) :
    ((run_init env argv).2 = Outcome.success ↔
      exitCode (run_init env argv).2 = 0)
    ∧ (∀ c n, (run_init env argv).2 = Outcome.cmdFailure c n →
        exitCode (run_init env argv).2 = 1)
    ∧ (argv.length < 2 → exitCode (run_init env argv).2 = 1) := by
  refine ⟨?_, ?_, ?_⟩
  · cases h : (run_init env argv).2 <;> simp [exitCode, h]
  · intro c n h
    rw [h]
    rfl
  · intro h
    match argv with
    | [] => rfl
    | [_] => rfl
    | _ :: _ :: _ => simp [List.length_cons] at h; omega

/-- Witness for C4 (amended) at a fully succeeding environment. -/
theorem run_init_exit_codes_witness :
    exitCode (run_init env0 ["cli-standard-kit", "demo"]).2 = 0 :=
  ((run_init_exit_codes env0 ["cli-standard-kit", "demo"]).1).mp rfl

/-- After a successful cookiecutter step and directory change, the trace is
the prefix through the chdir events followed by a remainder that contains no
further directory change. -/
lemma run_init_after_cd (env : Env) (prog p : String) (rest : List String)
    (hc : env.cmdExit (cookiecutterCmd p) = 0) (hd : env.chdirOk p = true) :
    ∃ b, (run_init env (prog :: p :: rest)).1 = cdTrace env p ++ b
      ∧ b.filter isChdirEv = [] := by
  by_cases hg : env.cmdExit gitInitCmd = 0
  · by_cases hb : env.cmdExit gitBranchCmd = 0
    · by_cases hv : env.cmdExit venvCmd = 0
      · refine ⟨echoExec gitInitCmd ++ (echoExec gitBranchCmd ++
          ((Event.print venvAnnounceMsg :: echoExec venvCmd) ++
            [Event.print venvDoneMsg, Event.print readyMsg,
              Event.print (hintMsg p)])), ?_, ?_⟩
        · rw [run_init_success env prog p rest hc hd hg hb hv]
          simp [fullTrace, venvTrace, brTrace, gitTrace, List.append_assoc]
        · simp [echoExec, isChdirEv]
      · refine ⟨echoExec gitInitCmd ++ (echoExec gitBranchCmd ++
          (Event.print venvAnnounceMsg :: echoExec venvCmd)), ?_, ?_⟩
        · rw [run_init_venvFail env prog p rest hc hd hg hb hv]
          simp [venvTrace, brTrace, gitTrace, List.append_assoc]
        · simp [echoExec, isChdirEv]
    · refine ⟨echoExec gitInitCmd ++ echoExec gitBranchCmd, ?_, ?_⟩
      · rw [run_init_brFail env prog p rest hc hd hg hb]
        simp [brTrace, gitTrace, List.append_assoc]
      · simp [echoExec, isChdirEv]
  · refine ⟨echoExec gitInitCmd, ?_, ?_⟩
    · rw [run_init_gitFail env prog p rest hc hd hg]
      simp [gitTrace]
    · simp [echoExec, isChdirEv]

/-- C5: once the template-generation step has succeeded and the directory
change has succeeded, the trace contains exactly one directory change — into
the directory named by the project — it is never reverted (no later chdir
event, whatever happens afterwards), and the resulting path reported by
`os.getcwd` is printed immediately after it. -/
theorem run_init_chdir_once (env : Env) (prog p : String)
    (rest : List String)
    (hc : env.cmdExit (cookiecutterCmd p) = 0) (hd : env.chdirOk p = true) :
    (run_init env (prog :: p :: rest)).1.filter isChdirEv = [Event.chdir p]
    ∧ (∃ a b, (run_init env (prog :: p :: rest)).1 =
        a ++ [Event.chdir p,
          Event.print (enteredMsg (env.getcwd p))] ++ b) := by
  rcases run_init_after_cd env prog p rest hc hd with ⟨b, h1, h2⟩
  constructor
  · rw [h1, List.filter_append, h2, List.append_nil]
    simp [cdTrace, preTrace, echoExec, isChdirEv]
  · refine ⟨preTrace p, b, ?_⟩
    rw [h1]
    simp [cdTrace, List.append_assoc]

/-- Witness for C5 at a concrete environment and project name. -/
theorem run_init_chdir_once_witness :
    (run_init env0 ("cli-standard-kit" :: "proj" :: [])).1.filter isChdirEv =
      [Event.chdir "proj"] :=
  (run_init_chdir_once env0 "cli-standard-kit" "proj" [] rfl rfl).1

/-- C6: in the project directory, the repository-initialization step runs the
quiet-init / stage-all / single-commit command (with the fixed commit message
`init project`) exactly once, followed — exactly once and after it — by the
rename of the current branch to the fixed name `main`; no later command
repeats either. -/
theorem run_init_git_bootstrap (env : Env) (prog p : String)
    (rest : List String)
    (hc : env.cmdExit (cookiecutterCmd p) = 0) (hd : env.chdirOk p = true)
    (hg : env.cmdExit gitInitCmd = 0) :
    (∃ tail, execCmds (run_init env (prog :: p :: rest)).1 =
        [cookiecutterCmd p, gitInitCmd, gitBranchCmd] ++ tail
      ∧ gitInitCmd ∉ tail ∧ gitBranchCmd ∉ tail ∧ cookiecutterCmd p ∉ tail)
    ∧ cookiecutterCmd p ≠ gitInitCmd
    ∧ cookiecutterCmd p ≠ gitBranchCmd
    ∧ gitInitCmd ≠ gitBranchCmd
    ∧ gitInitCmd = "git init -q && git add . && git commit -m " ++ quo ++
        "init project" ++ quo
    ∧ gitBranchCmd = "git branch -M main" := by
  refine ⟨?_, cc_ne_git p, cc_ne_branch p, by decide, rfl, rfl⟩
  by_cases hb : env.cmdExit gitBranchCmd = 0
  · by_cases hv : env.cmdExit venvCmd = 0
    · refine ⟨[venvCmd], ?_, by decide, by decide, ?_⟩
      · rw [run_init_success env prog p rest hc hd hg hb hv]
        simp [fullTrace, venvTrace, brTrace, gitTrace, cdTrace, preTrace,
          echoExec, execCmds]
      · simp [cc_ne_venv p]
    · refine ⟨[venvCmd], ?_, by decide, by decide, ?_⟩
      · rw [run_init_venvFail env prog p rest hc hd hg hb hv]
        simp [venvTrace, brTrace, gitTrace, cdTrace, preTrace,
          echoExec, execCmds]
      · simp [cc_ne_venv p]
  · refine ⟨([] : List String), ?_, by simp, by simp, by simp⟩
    rw [run_init_brFail env prog p rest hc hd hg hb]
    simp [brTrace, gitTrace, cdTrace, preTrace, echoExec, execCmds]

/-- Witness for C6 at a concrete environment and project name. -/
theorem run_init_git_bootstrap_witness :
    ∃ tail, execCmds (run_init env0 ("cli-standard-kit" :: "app" :: [])).1 =
        [cookiecutterCmd "app", gitInitCmd, gitBranchCmd] ++ tail
      ∧ gitInitCmd ∉ tail ∧ gitBranchCmd ∉ tail ∧
        cookiecutterCmd "app" ∉ tail :=
  (run_init_git_bootstrap env0 "cli-standard-kit" "app" [] rfl rfl rfl).1

/-- C7: on a fully successful run, the environment-creation step appears in
the trace as the announcement line, then the invocation of
`python3 -m venv .venv` (echoed by the `run` helper), then the completion
line, consecutively. -/
theorem run_init_venv_step (env : Env) (prog p : String) (rest : List String)
    (hc : env.cmdExit (cookiecutterCmd p) = 0) (hd : env.chdirOk p = true)
    (hg : env.cmdExit gitInitCmd = 0) (hb : env.cmdExit gitBranchCmd = 0)
    (hv : env.cmdExit venvCmd = 0) :
    (∃ a b, (run_init env (prog :: p :: rest)).1 =
      a ++ ([Event.print venvAnnounceMsg] ++ echoExec venvCmd ++
        [Event.print venvDoneMsg]) ++ b)
    ∧ venvCmd = "python3 -m venv .venv"
    ∧ venvAnnounceMsg = "🐍 Creating virtual environment (.venv)..."
    ∧ venvDoneMsg = "✅ Virtual environment created." := by
  refine ⟨⟨brTrace env p,
    [Event.print readyMsg, Event.print (hintMsg p)], ?_⟩, rfl, rfl, rfl⟩
  rw [run_init_success env prog p rest hc hd hg hb hv]
  simp [fullTrace, venvTrace, echoExec, List.append_assoc]

/-- Witness for C7 at a concrete environment and project name. -/
theorem run_init_venv_step_witness :
    ∃ a b, (run_init env0 ("cli-standard-kit" :: "tool" :: [])).1 =
      a ++ ([Event.print venvAnnounceMsg] ++ echoExec venvCmd ++
        [Event.print venvDoneMsg]) ++ b :=
  (run_init_venv_step env0 "cli-standard-kit" "tool" [] rfl rfl rfl rfl rfl).1

/-- Counterexample to C8 as stated: an invocation carrying two positional
arguments is not rejected as a usage error — it is processed, running the
template generation for the first argument and completing successfully. -/
theorem extra_args_not_rejected :
    (run_init env0 ["cli-standard-kit", "demo", "extra"]).2 = Outcome.success
    ∧ (run_init env0 ["cli-standard-kit", "demo", "extra"]).2 ≠
        Outcome.usageExit
    ∧ Event.exec (cookiecutterCmd "demo") ∈
        (run_init env0 ["cli-standard-kit", "demo", "extra"]).1 := by
  refine ⟨rfl, by decide, by decide⟩

/-- C8 (amended): `run_init` rejects as a usage error exactly the invocations
whose argument list has fewer than two entries (no positional argument); with
one or more positional arguments it proceeds, using the first and ignoring
the rest. -/
theorem run_init_arg_check (env : Env) :
    (∀ argv : List String,
      ((run_init env argv).2 = Outcome.usageExit ↔ argv.length < 2))
    ∧ (∀ prog p : String, ∀ rest : List String,
      run_init env (prog :: p :: rest) = run_init env [prog, p]) := by
  constructor
  · intro argv
    constructor
    · intro h
      match argv with
      | [] => simp
      | [_] => simp
      | a :: b :: t =>
        exfalso
        by_cases hc : env.cmdExit (cookiecutterCmd b) = 0
        · by_cases hd : env.chdirOk b = true
          · by_cases hg : env.cmdExit gitInitCmd = 0
            · by_cases hb2 : env.cmdExit gitBranchCmd = 0
              · by_cases hv : env.cmdExit venvCmd = 0
                · rw [run_init_success env a b t hc hd hg hb2 hv] at h
                  simp at h
                · rw [run_init_venvFail env a b t hc hd hg hb2 hv] at h
                  simp at h
              · rw [run_init_brFail env a b t hc hd hg hb2] at h
                simp at h
            · rw [run_init_gitFail env a b t hc hd hg] at h
              simp at h
          · rw [run_init_cdFail env a b t hc
              (Bool.not_eq_true _ ▸ hd : env.chdirOk b = false)] at h
            simp at h
        · rw [run_init_ccFail env a b t hc] at h
          simp at h
    · intro h
      match argv with
      | [] => rfl
      | [_] => rfl
      | _ :: _ :: _ => simp [List.length_cons] at h; omega
  · intro prog p rest
    rfl

/-- Witness for C8 (amended): a third argument does not change the run. -/
theorem run_init_arg_check_witness :
    run_init env0 ["cli-standard-kit", "demo", "extra"] =
      run_init env0 ["cli-standard-kit", "demo"] :=
  (run_init_arg_check env0).2 "cli-standard-kit" "demo" ["extra"]

/-- C9: the missing-argument check tests only argument presence — with the
empty string as project name, `run_init` does not take the usage path; it
invokes cookiecutter with the empty string spliced into both template
variables (leaving two adjacent single quotes for each), and then attempts
`os.chdir ""`: if that fails the run dies of the chdir error, if it succeeds
the trace records a change into `""`. -/
theorem empty_name_not_rejected (env : Env) (prog : String)
    (rest : List String)
    (hc : env.cmdExit (cookiecutterCmd "") = 0) :
    (run_init env (prog :: "" :: rest)).2 ≠ Outcome.usageExit
    ∧ Event.exec (cookiecutterCmd "") ∈ (run_init env (prog :: "" :: rest)).1
    ∧ cookiecutterCmd "" =
        "cookiecutter gh:c3nk/cookiecutter-cli-standard-kit --no-input " ++
          ("project_name=" ++ quo ++ quo ++ " project_slug=" ++ quo ++ quo)
    ∧ (env.chdirOk "" = false →
        (run_init env (prog :: "" :: rest)).2 = Outcome.chdirFailure "")
    ∧ (env.chdirOk "" = true →
        Event.chdir "" ∈ (run_init env (prog :: "" :: rest)).1) := by
  refine ⟨?_, ?_, ?_, ?_, ?_⟩
  · by_cases hd : env.chdirOk "" = true
    · rcases run_init_after_cd env prog "" rest hc hd with ⟨b, h1, _⟩
      intro h
      by_cases hg : env.cmdExit gitInitCmd = 0
      · by_cases hb2 : env.cmdExit gitBranchCmd = 0
        · by_cases hv : env.cmdExit venvCmd = 0
          · rw [run_init_success env prog "" rest hc hd hg hb2 hv] at h
            simp at h
          · rw [run_init_venvFail env prog "" rest hc hd hg hb2 hv] at h
            simp at h
        · rw [run_init_brFail env prog "" rest hc hd hg hb2] at h
          simp at h
      · rw [run_init_gitFail env prog "" rest hc hd hg] at h
        simp at h
    · intro h
      rw [run_init_cdFail env prog "" rest hc
        (Bool.not_eq_true _ ▸ hd : env.chdirOk "" = false)] at h
      simp at h
  · rcases run_init_trace_cases env prog "" rest with h | h | h | h | h <;>
      rw [h] <;>
      simp [preTrace, cdTrace, gitTrace, brTrace, venvTrace, fullTrace,
        echoExec]
  · rfl
  · intro hd
    rw [run_init_cdFail env prog "" rest hc hd]
  · intro hd
    rcases run_init_after_cd env prog "" rest hc hd with ⟨b, h1, _⟩
    rw [h1]
    simp [cdTrace]

/-- Witness for C9 with a benign environment. -/
theorem empty_name_not_rejected_witness :
    Event.exec (cookiecutterCmd "") ∈
      (run_init env0 ("cli-standard-kit" :: "" :: [])).1 :=
  (empty_name_not_rejected env0 "cli-standard-kit" [] rfl).2.1

/-- POSIX-shell field splitting restricted to the two metacharacters that can
occur in the constructed command line: the unquoted space as word separator
and the single quote as quoting character.  This models how the `/bin/sh`
started by `subprocess.run(..., shell=True)` splits the command into words.
The four arguments after the input are: inside-a-quote flag, a flag recording
that the current word has started, the characters of the current word, and
the accumulated words.  An unterminated quote yields `none`. -/
def shellSplit : List Char → Bool → Bool → List Char → List String →
    Option (List String)
  | [], true, _, _, _ => none
  | [], false, started, cur, acc =>
    if started then some (acc ++ [String.mk cur]) else some acc
  | c :: rest, true, _, cur, acc =>
    if c = qc then shellSplit rest false true cur acc
    else shellSplit rest true true (cur ++ [c]) acc
  | c :: rest, false, started, cur, acc =>
    if c = qc then shellSplit rest true true cur acc
    else if c = ' ' then
      (if started then shellSplit rest false false [] (acc ++ [String.mk cur])
       else shellSplit rest false false [] acc)
    else shellSplit rest false true (cur ++ [c]) acc

/-- The words the shell passes to `execve` for a command line. -/
def shellWords (s : String) : Option (List String) :=
  shellSplit s.data false false [] []

/-- C10: the project name is spliced into the command string without escaping,
so a name containing a single quote breaks the quoting: the shell no longer
receives the name as the single-quoted value of the template variables.  For
the name `a'b` the whole tail of the command collapses into the single word
`project_name=ab project_slug=ab`, while a quote-free name such as `demo`
parses into the intended five words. -/
theorem quoting_broken_by_quote_in_name :
    (∃ p : String, qc ∈ p.data ∧
      shellWords (cookiecutterCmd p) ≠
        some ["cookiecutter", "gh:c3nk/cookiecutter-cli-standard-kit",
          "--no-input", "project_name=" ++ p, "project_slug=" ++ p])
    ∧ shellWords (cookiecutterCmd ("a" ++ quo ++ "b")) =
        some ["cookiecutter", "gh:c3nk/cookiecutter-cli-standard-kit",
          "--no-input", "project_name=ab project_slug=ab"]
    ∧ shellWords (cookiecutterCmd "demo") =
        some ["cookiecutter", "gh:c3nk/cookiecutter-cli-standard-kit",
          "--no-input", "project_name=demo", "project_slug=demo"] := by
  refine ⟨⟨"a" ++ quo ++ "b", by decide, by decide⟩, by decide, by decide⟩
